import Mathlib

/-!
Verification of the request/auth/realtime orchestration layer of the
`@crisvp/pocketbase-js` client library.

The TypeScript sources are shallowly embedded: pure functions become Lean
functions, thrown JavaScript exceptions become explicit error results
(`Except` / `Option JsError`), and ambient state (the wall clock, the
pending-request registry, the auth-store fields) is passed explicitly.
Machine reals used for time (`Date.now() / 1000`) are modelled exactly by
integer milliseconds: the comparison `x < Date.now() / 1000` with `x` in
whole seconds is rendered as `x * 1000 < nowMs`, which is the same
rational-number comparison scaled by `1000`.

A JWT token string is represented by its `jose.decodeJwt` behaviour: either
the string fails to decode (`JwtToken.undecodable`, `decodeJwt` throws a
`JWTInvalid` error) or it decodes to a claims object
(`JwtToken.payload`).  The empty string is an undecodable token.
-/

/-- JavaScript exception values thrown by the embedded code.  `jwtInvalidError`
stands for instances of the `jose` `JWTInvalid` class (which is what the
`instanceof JWTInvalid` checks in the source match on), `jsError` for plain
`Error` instances. -/
inductive JsError
  | jwtInvalidError (message : String)
  | jsError (message : String)
  deriving DecidableEq, Repr

/-- JSON values.  Numbers are modelled as integers: every numeric claim the
library inspects (`exp` in Unix seconds) is integral. -/
inductive Json
  | null
  | bool (b : Bool)
  | num (n : Int)
  | str (s : String)
  | arr (elems : List Json)
  | obj (fields : List (String × Json))

/-- JavaScript truthiness of a JSON value (`0`, `""`, `false`, `null` are
falsy; objects and arrays are always truthy). -/
def Json.truthy : Json → Bool
  | .null => false
  | .bool b => b
  | .num n => decide (n ≠ 0)
  | .str s => decide (s ≠ "")
  | .arr _ => true
  | .obj _ => true

/-- A compact JWT string, represented by its decode behaviour under
`jose.decodeJwt`: strings that fail to decode (fewer than three segments,
bad base64url, bad JSON — including the empty string) versus strings whose
middle segment decodes to the given claims. -/
inductive JwtToken
  | undecodable (s : String)
  | payload (claims : List (String × Json))

/-- The empty token string stored by a cleared auth store; `jose.decodeJwt ""`
throws `JWTInvalid`. -/
def emptyToken : JwtToken := .undecodable ""

/-- `getTokenPayload` from `src/stores/utils/jwt.ts`: `jose.decodeJwt` either
returns the claims or throws; the function logs and rethrows the error. -/
def getTokenPayload : JwtToken → Except JsError (List (String × Json))
  | .undecodable _ => .error (.jwtInvalidError "Invalid JWT")
  | .payload claims => .ok claims

/-- `possiblyValidPayload` from `src/stores/utils/jwt.ts`: the payload is an
object and has an `exp` key (`'exp' in payload`). -/
def possiblyValidPayload (claims : List (String × Json)) : Bool :=
  (claims.lookup "exp").isSome

/-- `jwtExpiration` from `src/stores/utils/jwt.ts`: decodes the payload and
returns its `exp` member, throwing `Error("Invalid token payload.")` when the
`exp` key is absent. -/
def jwtExpiration (t : JwtToken) : Except JsError Json :=
  match getTokenPayload t with
  | .error e => .error e
  | .ok claims =>
    match claims.lookup "exp" with
    | some v => .ok v
    | none => .error (.jsError "Invalid token payload.")

/-- The JavaScript comparison `expiration - expirationThreshold <
Date.now() / 1000` where `expiration` is the raw `exp` claim value.  A
non-numeric `exp` makes the subtraction `NaN` and every `NaN` comparison is
`false` in JavaScript.  `threshold` is in seconds, `nowMs` is
`Date.now()` in integer milliseconds, and the division by 1000 is carried
out exactly by scaling the left-hand side. -/
def expLtNow (expv : Json) (threshold nowMs : Int) : Bool :=
  match expv with
  | .num e => decide ((e - threshold) * 1000 < nowMs)
  | _ => false

/-- `isTokenExpired` from `src/stores/utils/jwt.ts`:
`jwtExpiration(token) - expirationThreshold < Date.now() / 1000`, with
`jwtExpiration`'s errors propagating. -/
def isTokenExpired (t : JwtToken) (expirationThreshold : Int) (nowMs : Int) :
    Except JsError Bool :=
  match jwtExpiration t with
  | .error e => .error e
  | .ok expv => .ok (expLtNow expv expirationThreshold nowMs)

/-- `jwtValid` from `src/stores/utils/jwt.ts`: `!isTokenExpired(token)`,
catching only `JWTInvalid` errors (returning `false` for them) and
rethrowing every other error. -/
def jwtValid (t : JwtToken) (nowMs : Int) : Except JsError Bool :=
  match isTokenExpired t 0 nowMs with
  | .ok b => .ok (!b)
  | .error (.jwtInvalidError _) => .ok false
  | .error e => .error e

/-! ## AuthStore (`src/stores/BaseAuthStore.ts`, `src/stores/AsyncAuthStore.ts`) -/

/-- A JavaScript value passed as the `model` argument of
`BaseAuthStore.save`.  Only the shape matters to the runtime checks
(`!model || typeof model !== 'object'`). -/
inductive JsValue
  | null
  | undef
  | bool (b : Bool)
  | num (n : Int)
  | str (s : String)
  | arr (elems : List Json)
  | obj (fields : List (String × Json))

/-- JavaScript truthiness of a `JsValue` (`!model` in the source is the
negation of this). -/
def JsValue.truthy : JsValue → Bool
  | .null => false
  | .undef => false
  | .bool b => b
  | .num n => decide (n ≠ 0)
  | .str s => decide (s ≠ "")
  | .arr _ => true
  | .obj _ => true

/-- `typeof model === 'object'` (in JavaScript `typeof null` is also
`'object'`, and arrays are objects). -/
def JsValue.isObjectType : JsValue → Bool
  | .null => true
  | .obj _ => true
  | .arr _ => true
  | _ => false

/-- Whether the fields of an object carry an `id` member that is a string
(the check performed by the `isAuthModel` helper in
`src/stores/BaseAuthStore.ts`, which `save` does not call). -/
def JsValue.hasStringId : JsValue → Bool
  | .obj fields =>
    match fields.lookup "id" with
    | some (.str _) => true
    | _ => false
  | _ => false

/-- The mutable state of a `BaseAuthStore`: the stored token string, the
stored model, and the registered `onChange` callbacks (identified by
numbers, in registration order). -/
structure AuthStoreState where
  baseToken : JwtToken
  baseModel : JsValue
  listeners : List Nat

/-- A change notification delivered to one listener: the listener id and the
`(token, model)` pair passed to the callback. -/
def Notif := Nat × JwtToken × JsValue

/-- `BaseAuthStore.triggerChange`: synchronously invokes every registered
callback, in registration order, with the current `(token, model)` pair. -/
def triggerChange (st : AuthStoreState) : List Notif :=
  st.listeners.map (fun l => (l, st.baseToken, st.baseModel))

/-- `BaseAuthStore.isValid` getter: `jwtValid(this.token)` (errors other
than `JWTInvalid` propagate to the property reader). -/
def storeIsValid (st : AuthStoreState) (nowMs : Int) : Except JsError Bool :=
  jwtValid st.baseToken nowMs

/-- `BaseAuthStore.save` embedded as a state transformer.  A thrown
exception is returned as `some e` together with the state as it was at the
throw point; the source validates before mutating, so on error the input
state is returned unchanged and no notification is produced. -/
def BaseAuthStore.save (st : AuthStoreState) (token : JwtToken) (model : JsValue)
    (nowMs : Int) : AuthStoreState × List Notif × Option JsError :=
  match jwtValid token nowMs with
  | .error e => (st, [], some e)
  | .ok valid =>
    if !valid then (st, [], some (.jwtInvalidError "Invalid token."))
    else if !model.truthy || !model.isObjectType then
      (st, [], some (.jsError "Invalid model data."))
    else
      let st' := { st with baseToken := token, baseModel := model }
      (st', triggerChange st', none)

/-- `BaseAuthStore.clear`: empties the state and notifies listeners; never
throws. -/
def BaseAuthStore.clear (st : AuthStoreState) : AuthStoreState × List Notif :=
  let st' := { st with baseToken := emptyToken, baseModel := .null }
  (st', triggerChange st')

/-- Outcome of an injected asynchronous persistence callback: the promise it
returns either resolves or rejects. -/
inductive PersistOutcome
  | resolves
  | rejects (e : JsError)

/-- `AsyncAuthStore.save`: requires a model, delegates to the synchronous
`BaseAuthStore.save`, then awaits the injected persistence callback inside
`try { ... } catch { console.warn(...) }` — a rejection of the callback is
logged and swallowed, so it never changes the returned outcome. -/
def AsyncAuthStore.save (st : AuthStoreState) (token : JwtToken) (model : JsValue)
    (nowMs : Int) (persist : PersistOutcome) :
    AuthStoreState × List Notif × Option JsError :=
  if !model.truthy then
    (st, [], some (.jsError "AsyncAuthStore: model data is required."))
  else
    match BaseAuthStore.save st token model nowMs with
    | (st', notifs, some e) => (st', notifs, some e)
    | (st', notifs, none) =>
      match persist with
      | .rejects _ => (st', notifs, none)
      | .resolves => (st', notifs, none)

/-- `AsyncAuthStore.clear`: calls the synchronous `BaseAuthStore.clear`,
then awaits the injected persistence callback (`clearFunc`, or `saveFunc`
with empty data) with no surrounding `try`/`catch`: a rejection of the
callback propagates and the promise returned by `clear` rejects. -/
def AsyncAuthStore.clear (st : AuthStoreState) (persist : PersistOutcome) :
    AuthStoreState × List Notif × Option JsError :=
  let (st', notifs) := BaseAuthStore.clear st
  match persist with
  | .rejects e => (st', notifs, some e)
  | .resolves => (st', notifs, none)

/-! ## String utilities

JavaScript string operations used by the embedded code, carried out on
`List Char`.  `String.prototype.replaceAll` with a string pattern replaces
every non-overlapping occurrence left to right and continues scanning after
the inserted replacement; `String.prototype.replace` with a string pattern
replaces only the first occurrence.  Both interpret `$`-substitution
patterns in a string replacement via `GetSubstitution` (ECMA-262).  The
embedded call sites never pass an empty pattern. -/

/-- The backquote character (code point 96), written by code point. -/
def backquoteChar : Char := Char.ofNat 96

/-- `GetSubstitution` (ECMA-262) as it applies to a string search value:
within the replacement text, `$$` produces `$`, `$&` the matched pattern
text, `$` followed by a backquote the part of the original string before
the match, and `$'` the part of the original string after the match.  A
`$` followed by anything else — including digits and `<`, which refer to
regular-expression captures and stay literal when the search value is a
string — is treated literally, as is a trailing `$`. -/
def getSubstitution : List Char → List Char → List Char → List Char → List Char
  | [], _, _, _ => []
  | c :: rest, matched, before, after =>
    if c = '$' then
      match rest with
      | [] => [c]
      | d :: rest2 =>
        if d = '$' then c :: getSubstitution rest2 matched before after
        else if d = '&' then matched ++ getSubstitution rest2 matched before after
        else if d = backquoteChar then before ++ getSubstitution rest2 matched before after
        else if d = '\'' then after ++ getSubstitution rest2 matched before after
        else c :: d :: getSubstitution rest2 matched before after
    else c :: getSubstitution rest matched before after

/-- The scanning loop of `s.replaceAll(pat, rep)`, structurally recursive
on a fuel counter (each step consumes at least one character of `s` when
`pat` is non-empty, so `s.length` fuel always suffices).  `seen` holds the
part of the original string before the current scan position, which
`GetSubstitution` needs for the before-match text; the after-match text of
an occurrence is the unscanned remainder of the original string. -/
def replaceAllSubstFuel : Nat → List Char → List Char → List Char → List Char → List Char
  | 0, s, _, _, _ => s
  | fuel + 1, s, pat, rep, seen =>
    match s with
    | [] => []
    | c :: rest =>
      if pat ≠ [] ∧ pat.isPrefixOf (c :: rest) then
        getSubstitution rep pat seen ((c :: rest).drop pat.length)
          ++ replaceAllSubstFuel fuel ((c :: rest).drop pat.length) pat rep (seen ++ pat)
      else
        c :: replaceAllSubstFuel fuel rest pat rep (seen ++ [c])

/-- `s.replaceAll(pat, rep)` for a non-empty string pattern `pat`: every
non-overlapping occurrence is replaced left to right by the
`GetSubstitution` expansion of `rep`, scanning continuing after the
inserted replacement (an empty pattern returns `s` unchanged; no call site
uses one). -/
def replaceList (s pat rep : List Char) : List Char :=
  replaceAllSubstFuel s.length s pat rep []

/-- The scanning loop of `s.replace(pat, rep)`: only the first occurrence
is replaced, with `GetSubstitution` applied to `rep`. -/
def replaceFirstAux : List Char → List Char → List Char → List Char → List Char
  | [], _, _, _ => []
  | c :: rest, pat, rep, seen =>
    if pat ≠ [] ∧ pat.isPrefixOf (c :: rest) then
      getSubstitution rep pat seen ((c :: rest).drop pat.length)
        ++ (c :: rest).drop pat.length
    else
      c :: replaceFirstAux rest pat rep (seen ++ [c])

/-- `s.replace(pat, rep)` for a non-empty string pattern: only the first
occurrence is replaced. -/
def replaceFirstList (s pat rep : List Char) : List Char :=
  replaceFirstAux s pat rep []

/-- Literal replace-all: every occurrence of `pat` is replaced by the text
`rep` itself with no `$`-substitution — the insertion semantics the
specification's substitution rules describe. -/
def literalReplaceFuel : Nat → List Char → List Char → List Char → List Char
  | 0, s, _, _ => s
  | fuel + 1, s, pat, rep =>
    match s with
    | [] => []
    | c :: rest =>
      if pat ≠ [] ∧ pat.isPrefixOf (c :: rest) then
        rep ++ literalReplaceFuel fuel ((c :: rest).drop pat.length) pat rep
      else
        c :: literalReplaceFuel fuel rest pat rep

/-- Literal replace-all over a whole character list. -/
def literalReplaceAll (s pat rep : List Char) : List Char :=
  literalReplaceFuel s.length s pat rep

/-- `s.includes(pat)` (substring containment). -/
def listContainsSub (s pat : List Char) : Bool :=
  match s with
  | [] => pat.isEmpty
  | _ :: rest => pat.isPrefixOf s || listContainsSub rest pat

/-- `String` wrapper for `replaceList`. -/
def strReplaceAll (s pat rep : String) : String :=
  ⟨replaceList s.data pat.data rep.data⟩

/-- `String` wrapper for `listContainsSub`. -/
def strIncludes (s pat : String) : Bool :=
  listContainsSub s.data pat.data

/-- The characters `JSON.stringify` emits for one character of a string
value (escaping the double quote and the backslash; the embedded inputs
contain no control characters). -/
def jsonEscapeChar (c : Char) : List Char :=
  if c = '"' then ['\\', '"']
  else if c = '\\' then ['\\', '\\']
  else [c]

mutual

/-- `JSON.stringify` of a JSON value. -/
def jsonStringifyList : Json → List Char
  | .null => "null".data
  | .bool true => "true".data
  | .bool false => "false".data
  | .num n => (toString n).data
  | .str s => '"' :: s.data.flatMap jsonEscapeChar ++ ['"']
  | .arr es => '[' :: jsonArrItems es ++ [']']
  | .obj fs => '{' :: jsonObjItems fs ++ ['}']

/-- Comma-separated `JSON.stringify` forms of array elements. -/
def jsonArrItems : List Json → List Char
  | [] => []
  | [x] => jsonStringifyList x
  | x :: y :: xs => jsonStringifyList x ++ ',' :: jsonArrItems (y :: xs)

/-- Comma-separated `"key":value` pairs of an object. -/
def jsonObjItems : List (String × Json) → List Char
  | [] => []
  | [(k, v)] => '"' :: k.data.flatMap jsonEscapeChar ++ '"' :: ':' :: jsonStringifyList v
  | (k, v) :: p :: fs =>
    '"' :: k.data.flatMap jsonEscapeChar ++ '"' :: ':' :: jsonStringifyList v
      ++ ',' :: jsonObjItems (p :: fs)

end

/-- `JSON.stringify` as a `String`-valued function. -/
def jsonStringify (j : Json) : String :=
  ⟨jsonStringifyList j⟩

/-! ## ClientResponseError (`src/ClientResponseError.ts`) -/

/-- The `errData` argument of the `ClientResponseError` constructor: an
`Error` instance, a `DOMException` instance (e.g. the abort error a fetch
rejects with), a string, a plain data object (read through its JSON
fields), or `null`/`undefined` (no argument). -/
inductive JsErrData
  | errorInst (message : String)
  | domException (message : String)
  | str (s : String)
  | objData (fields : List (String × Json))
  | jsonVal (j : Json)
  | nullData

/-- The normalized error shape produced by the `ClientResponseError`
constructor.  `originalError` is `none` when the field stayed
`null`/`undefined`. -/
structure ClientResponseError where
  url : String
  status : Int
  response : List (String × Json)
  isAbort : Bool
  originalError : Option JsErrData
  message : String

/-- JavaScript truthiness of the `originalError` field
(`!this.originalError`): `Error`/`DOMException` instances and objects are
truthy, strings by non-emptiness, plain values by JavaScript truthiness; an
absent value is falsy. -/
def origErrTruthy : Option JsErrData → Bool
  | none => false
  | some (.str s) => decide (s ≠ "")
  | some (.jsonVal j) => j.truthy
  | some .nullData => false
  | some _ => true

/-- `JSON.stringify(this.originalError)`: `Error` and `DOMException`
instances stringify to `"{}"` (their properties are non-enumerable),
strings to their quoted form, data objects to their JSON text, and `null`
to `"null"`; an absent value is modelled as the empty string (the
`includes` call is only reached with a truthy `originalError`). -/
def origErrStringify : Option JsErrData → String
  | none => ""
  | some (.errorInst _) => "{}"
  | some (.domException _) => "{}"
  | some (.str s) => jsonStringify (.str s)
  | some (.objData fields) => jsonStringify (.obj fields)
  | some (.jsonVal j) => jsonStringify j
  | some .nullData => "null"

/-- The `ClientResponseError` constructor from
`src/ClientResponseError.ts`, branch for branch: the field assignments per
`errData` variant, the `originalError` fallback, the late
`instanceof DOMException` re-check of `isAbort`, and the message-selection
chain (`super('ClientResponseError')` pre-sets the message, so the
fallback chain only fires when a branch overwrote the message with an
empty string). -/
def mkClientResponseError (errData : Option JsErrData) : ClientResponseError :=
  -- field defaults, with `message` set by `super('ClientResponseError')`
  let e0 : ClientResponseError :=
    { url := "", status := 0, response := [], isAbort := false,
      originalError := none, message := "ClientResponseError" }
  let e1 : ClientResponseError :=
    match errData with
    | some (.errorInst m) =>
      -- `errData instanceof Error`
      { e0 with originalError := errData, message := m }
    | some (.domException m) =>
      -- in environments where DOMException extends Error the first branch
      -- runs (without setting isAbort there), otherwise the second branch
      -- sets it; the late re-check below makes isAbort true either way
      { e0 with originalError := errData, message := m }
    | some (.str s) => { e0 with message := s }
    | some (.objData fields) =>
      { e0 with
        url := (match fields.lookup "url" with | some (.str u) => u | _ => ""),
        status := (match fields.lookup "status" with | some (.num n) => n | _ => 0),
        isAbort := (fields.lookup "isAbort").elim false Json.truthy,
        originalError := (fields.lookup "originalError").map .jsonVal,
        response :=
          match fields.lookup "response" with
          | some (.obj r) => r
          | _ =>
            match fields.lookup "data" with
            | some (.obj d) => d
            | _ => [] }
    | some (.jsonVal _) => e0
    | some .nullData => e0
    | none => e0
  -- `if (!this.originalError && !(errData instanceof ClientResponseError)) this.originalError = errData`
  let e2 := if !origErrTruthy e1.originalError then { e1 with originalError := errData } else e1
  -- `if (... errData instanceof DOMException) this.isAbort = true`
  let e3 :=
    match errData with
    | some (.domException _) => { e2 with isAbort := true }
    | _ => e2
  -- `if (typeof this.response?.message === 'string') this.message = ...`
  let e4 :=
    match e3.response.lookup "message" with
    | some (.str m) => { e3 with message := m }
    | _ => e3
  -- `if (!this.message) { ... }`
  if e4.message = "" then
    if e4.isAbort then
      { e4 with message := "The request was autocancelled. You can find more info in https://github.com/pocketbase/js-sdk#auto-cancellation." }
    else if strIncludes (origErrStringify e4.originalError) "ECONNREFUSED ::1" then
      { e4 with message := "Failed to connect to the PocketBase server. Try changing the SDK URL from localhost to 127.0.0.1 (https://github.com/pocketbase/js-sdk/issues/21)." }
    else
      { e4 with message := "Something went wrong while processing your request to " ++ e4.url }
  else e4

/-! ## Client (`src/Client.ts`): pending-request registry and `send` -/

/-- The client state relevant to request cancellation:
`cancelControllers` as an insertion-ordered association list from
cancellation key to an `AbortController` identified by a number, the set of
controllers whose `abort()` has been called, and the id for the next
`new AbortController()`. -/
structure CancelState where
  cancelControllers : List (String × Nat)
  aborted : List Nat
  nextId : Nat

/-- The empty registry of a fresh `Client`. -/
def CancelState.initial : CancelState :=
  { cancelControllers := [], aborted := [], nextId := 0 }

/-- `Client.cancelRequest(requestKey)`: if an entry exists, abort its
controller and delete the entry; otherwise a no-op. -/
def Client.cancelRequest (st : CancelState) (requestKey : String) : CancelState :=
  match st.cancelControllers.lookup requestKey with
  | some controller =>
    { st with
      aborted := controller :: st.aborted,
      cancelControllers := st.cancelControllers.filter (fun kv => kv.1 ≠ requestKey) }
  | none => st

/-- `Client.cancelAllRequests()`: abort every controller and clear the
map. -/
def Client.cancelAllRequests (st : CancelState) : CancelState :=
  { st with
    aborted := st.cancelControllers.map Prod.snd ++ st.aborted,
    cancelControllers := [] }

/-- The `requestKey` send option: absent (`undefined`), explicitly `null`
(cancellation disabled for the call), or a key string. -/
inductive ReqKey
  | unset
  | explicitNull
  | key (s : String)
  deriving DecidableEq

/-- The legacy-normalization step of `Client.initSendOptions`: when
`requestKey` is `undefined`, a `$autoCancel === false` query/option flag
turns it into `null`, else a non-empty string `$cancelKey` query parameter
becomes the key. -/
def normalizeRequestKey (requestKey : ReqKey) (autoCancelFalse : Bool)
    (cancelKeyParam : Option String) : ReqKey :=
  match requestKey with
  | .unset =>
    if autoCancelFalse then .explicitNull
    else
      match cancelKeyParam with
      | some s => if s ≠ "" then .key s else .unset
      | none => .unset
  | rk => rk

/-- The auto-cancellation step of `Client.initSendOptions`: when
auto-cancellation is enabled and `requestKey` is not explicitly `null`, the
effective key is `options.requestKey || (options.method || 'GET') + path`;
any prior pending request under that key is cancelled and removed, and a
fresh controller is registered under the key.  Returns the new state and
the id of the controller installed for this request (if any). -/
def Client.initSendOptionsCancellation (st : CancelState) (enableAutoCancellation : Bool)
    (requestKey : ReqKey) (method path : String) : CancelState × Option Nat :=
  if enableAutoCancellation && !(requestKey = .explicitNull : Bool) then
    let key :=
      match requestKey with
      | .key s => if s = "" then method ++ path else s
      | _ => method ++ path
    let st1 := Client.cancelRequest st key
    ({ st1 with
       cancelControllers := st1.cancelControllers ++ [(key, st1.nextId)],
       nextId := st1.nextId + 1 },
     some st1.nextId)
  else (st, none)

/-- The registry effect of a request settling (fulfilment or rejection) in
`Client.send`: the source contains no removal of the entry registered by
`initSendOptions` — neither a `then`/`finally` cleanup nor a `catch` —
so the registry is left exactly as it was. -/
def Client.sendCompleteRegistry (st : CancelState) : CancelState := st

/-- How the awaited `fetch` call inside `Client.send` settles. -/
inductive FetchOutcome
  | aborted (message : String)
  | networkFailure (message : String)
  | response (status : Nat) (body : Except JsError Json)

/-- A failure surfacing from `Client.send` to the awaiting caller: either a
raw exception rethrown unwrapped, or a thrown `ClientResponseError`. -/
inductive SendFailure
  | raw (e : JsErrData)
  | normalized (e : ClientResponseError)

/-- The dispatch-and-decode tail of `Client.send` (after
`initSendOptions`, `buildUrl`, the `beforeSend` hook and query
serialization): `await fetchFunc(url, options)` with **no surrounding
`try`/`catch`**, the 204 short-circuit, `await response.json()`, the
`status >= 400` throw of a `ClientResponseError`, and otherwise the decoded
data.  A rejection of `fetchFunc` (the `DOMException` produced by an
aborted signal, or a network `TypeError`) and a rejection of
`response.json()` propagate to the caller unwrapped. -/
def Client.sendDispatch (url : String) (outcome : FetchOutcome) : Except SendFailure Json :=
  match outcome with
  | .aborted m => .error (.raw (.domException m))
  | .networkFailure m => .error (.raw (.errorInst m))
  | .response status body =>
    if status = 204 then .ok (.obj [])
    else
      match body with
      | .error e =>
        .error (.raw (.errorInst (match e with | .jsError m => m | .jwtInvalidError m => m)))
      | .ok data =>
        if status ≥ 400 then
          .error (.normalized (mkClientResponseError (some (.objData
            [("url", .str url), ("status", .num status), ("data", data)]))))
        else .ok data

/-! ## `Client.filter` (`src/Client.ts`) -/

/-- A parameter value accepted by `Client.filter`: the JavaScript types the
`switch` distinguishes.  A `Date` is represented by its `toISOString()`
text; every other object/array value is carried as JSON (the domain of the
spec's substitution rules). -/
inductive FilterParam
  | str (s : String)
  | num (n : Int)
  | bool (b : Bool)
  | null
  | date (isoText : String)
  | json (j : Json)

/-- `val.replace(/'/g, "\\'")`: every single quote becomes a backslash
followed by a single quote (a global single-character regex is a per-character
substitution). -/
def escapeSingleQuotes (s : List Char) : List Char :=
  s.flatMap (fun c => if c = '\'' then ['\\', '\''] else [c])

/-- The replacement text `Client.filter` computes for one parameter value:
the `switch (typeof val)` with its `default` branch (`null` check, `Date`
check, `JSON.stringify` fallback). -/
def Client.filterRender : FilterParam → List Char
  | .bool b => (if b then "true" else "false").data
  | .num n => (toString n).data
  | .str s => '\'' :: escapeSingleQuotes s.data ++ ['\'']
  | .null => "null".data
  | .date iso => '\'' :: replaceFirstList iso.data ['T'] [' '] ++ ['\'']
  | .json j => '\'' :: escapeSingleQuotes (jsonStringifyList j) ++ ['\'']

/-- The placeholder text `'{:' + key + '}'`. -/
def placeholderFor (key : String) : List Char :=
  '{' :: ':' :: key.data ++ ['}']

/-- `Client.filter(raw, params)` from `src/Client.ts`: returns `raw` when
`params` is absent, otherwise iterates the parameters in insertion order and
`replaceAll`s each `{:key}` placeholder with the rendered value. -/
def Client.filter (raw : String) (params : Option (List (String × FilterParam))) : String :=
  match params with
  | none => raw
  | some ps =>
    ⟨ps.foldl (fun acc kv => replaceList acc (placeholderFor kv.1) (Client.filterRender kv.2)) raw.data⟩

/-- The substitution rules exactly as §4.4 of the specification words them:
string → single-quoted with internal single quotes backslash-escaped;
number/boolean → bare literal; null → literal `null`; Date → single-quoted
ISO form with a space instead of the `T`; anything else → single-quoted
JSON text with internal single quotes escaped. -/
def filterSpecRender : FilterParam → List Char
  | .str s => '\'' :: escapeSingleQuotes s.data ++ ['\'']
  | .num n => (toString n).data
  | .bool b => (if b then "true" else "false").data
  | .null => "null".data
  | .date iso => '\'' :: replaceFirstList iso.data ['T'] [' '] ++ ['\'']
  | .json j => '\'' :: escapeSingleQuotes (jsonStringifyList j) ++ ['\'']

/-- The specification's description of `filter`: substitute every `{:name}`
placeholder of a parameter by its rendered value, inserted literally,
leaving the rest of the string (including unmatched placeholders)
verbatim. -/
def filterSpec (raw : String) (ps : List (String × FilterParam)) : String :=
  ⟨ps.foldl (fun acc kv =>
      literalReplaceAll acc (placeholderFor kv.1) (filterSpecRender kv.2)) raw.data⟩

/-! ## RealtimeService (`src/services/RealtimeService.ts`) -/

/-- The subscription registry `Record<string, EventListener[]>`, modelled
as an insertion-ordered association list from composite key to the number
of registered listener callbacks (the operations under test only ever
inspect the length of a key's listener array or delete whole keys). -/
abbrev SubsRegistry := List (String × Nat)

/-- Whether a key matches a topic in `getSubscriptionsByTopic`: the topic
gets a `?` appended unless it already contains one, and a key matches when
`key + "?"` starts with that delimited topic. -/
def topicKeyMatch (topic key : String) : Bool :=
  let t := if topic.data.contains '?' then topic else topic ++ "?"
  t.data.isPrefixOf (key ++ "?").data

/-- `RealtimeService.getSubscriptionsByTopic`. -/
def getSubscriptionsByTopic (subs : SubsRegistry) (topic : String) : SubsRegistry :=
  subs.filter (fun kv => topicKeyMatch topic kv.1)

/-- `RealtimeService.hasSubscriptionListeners`: with a key, that key's
listener list is non-empty; without one, some key's listener list is
non-empty. -/
def hasSubscriptionListeners (subs : SubsRegistry) (keyToCheck : Option String) : Bool :=
  match keyToCheck with
  | some k =>
    match subs.lookup k with
    | some n => decide (0 < n)
    | none => false
  | none => subs.any (fun kv => decide (0 < kv.2))

/-- What `unsubscribe` does after updating the registry: close the SSE
connection, submit the updated subscription list to the server, or
nothing. -/
inductive RtAction
  | disconnect
  | submit
  | noop
  deriving DecidableEq

/-- `RealtimeService.unsubscribe(topic?)`: with no topic the registry is
replaced by `{}`; with a topic, every matching key that still has listeners
is deleted (keys with an empty listener list are skipped as "already
unsubscribed") and `needToSubmit` records whether any key was deleted.
Afterwards: no remaining listeners → `disconnect()`; otherwise, if a key
was deleted → `submitSubscriptions()`. -/
def RealtimeService.unsubscribe (subs : SubsRegistry) (topic : Option String) :
    SubsRegistry × RtAction :=
  let step : SubsRegistry × Bool :=
    match topic with
    | none => (([] : SubsRegistry), false)
    | some t =>
      let removed : SubsRegistry :=
        (getSubscriptionsByTopic subs t).filter (fun kv => decide (0 < kv.2))
      (subs.filter (fun kv => !(removed.map Prod.fst).contains kv.1),
       decide (removed ≠ []))
  let subs1 := step.1
  let needToSubmit := step.2
  if !hasSubscriptionListeners subs1 none then (subs1, .disconnect)
  else if needToSubmit then (subs1, .submit)
  else (subs1, .noop)

/-! ## Auto refresh (`src/services/utils/refresh.ts`) -/

/-- How one of the injected auth calls (`refreshFunc`,
`reauthenticateFunc`) settles. -/
inductive CallOutcome
  | succeeds
  | fails (e : JsError)
  deriving DecidableEq, Repr

/-- The observable effect of one run of the `beforeSend` hook installed by
`registerAutoRefresh`: how many times it invoked `refreshFunc` and
`reauthenticateFunc`, and whether it completed or threw. -/
structure AutoRefreshRun where
  refreshCalls : Nat
  reauthCalls : Nat
  outcome : Option JsError
  deriving DecidableEq, Repr

/-- The `beforeSend` hook installed by `registerAutoRefresh`
(`src/services/utils/refresh.ts`), for a store holding `token`:
requests marked with the internal `autoRefresh` query flag are passed
straight through; otherwise `isValid` is read from the store, and when the
token is loosely valid, not yet expired, but expiring within `threshold`
seconds, `refreshFunc` is awaited inside `try`/`catch` — a refresh failure
is logged and downgrades `isValid` instead of propagating.  When `isValid`
is (still) false, `reauthenticateFunc` is awaited with no handler, so its
failure propagates to the outer request. -/
def autoRefreshBeforeSend (token : JwtToken) (threshold : Int)
    (internalAutoRefresh : Bool) (refresh reauth : CallOutcome) (nowMs : Int) :
    AutoRefreshRun :=
  if internalAutoRefresh then ⟨0, 0, none⟩
  else
    match storeIsValid ⟨token, .null, []⟩ nowMs with
    | .error e => ⟨0, 0, some e⟩
    | .ok isValid0 =>
      -- `isValid && !isTokenExpired(token) && isTokenExpired(token, threshold)`
      let cond : Except JsError Bool :=
        if !isValid0 then .ok false
        else
          match isTokenExpired token 0 nowMs with
          | .error e => .error e
          | .ok true => .ok false
          | .ok false => isTokenExpired token threshold nowMs
      match cond with
      | .error e => ⟨0, 0, some e⟩
      | .ok true =>
        match refresh with
        | .succeeds =>
          -- isValid is still true: the reauthentication branch is skipped
          ⟨1, 0, none⟩
        | .fails _ =>
          -- `catch`: log and set isValid = false, then reauthenticate
          match reauth with
          | .succeeds => ⟨1, 1, none⟩
          | .fails e => ⟨1, 1, some e⟩
      | .ok false =>
        if !isValid0 then
          match reauth with
          | .succeeds => ⟨0, 1, none⟩
          | .fails e => ⟨0, 1, some e⟩
        else ⟨0, 0, none⟩

/-! ## Cookie export (`src/stores/BaseAuthStore.ts`) -/

/-- The cookie assembled by `exportToCookie` with the default attribute
options.  `cookieSerialize` itself lives in `src/stores/utils/cookie.ts`,
which is not among the repository files available here; per §6 of the
specification the serialized text is the `key=value` pair (percent-encoded
JSON `{token, model}`) followed by the attributes, so the record below
carries exactly those constituents instead of the flat text. -/
structure CookieExport where
  key : String
  token : JwtToken
  model : JsValue
  expiresMs : Int
  secure : Bool
  httpOnly : Bool
  sameSiteStrict : Bool
  path : String

/-- `BaseAuthStore.exportToCookie` with the default options: reads
`getTokenPayload(this.token)` — whose error for an empty or undecodable
token propagates — then sets `Expires` from a truthy numeric `exp` claim
(milliseconds `exp * 1000`) or `new Date('1970-01-01')` (epoch, already
past) and assembles the cookie from the current `(token, model)` pair.
The over-4096-byte model pruning only shrinks the serialized model and
cannot fail, so it is not modelled separately. -/
def BaseAuthStore.exportToCookie (st : AuthStoreState) : Except JsError CookieExport :=
  match getTokenPayload st.baseToken with
  | .error e => .error e
  | .ok payload =>
    let expiresMs : Int :=
      match payload.lookup "exp" with
      | some (.num e) => if e ≠ 0 then e * 1000 else 0
      | _ => 0
    .ok
      { key := "pb_auth", token := st.baseToken, model := st.baseModel,
        expiresMs := expiresMs, secure := true, httpOnly := true,
        sameSiteStrict := true, path := "/" }

/-! ## Claims about the token codec and the auth store -/

/-- Claim C2, counterexample: for a token whose claims decode to valid JSON
but carry no `exp` key, `isTokenExpired` does not return `false` — it
throws `Error("Invalid token payload.")`; and for a numeric `exp` with
`exp - threshold = now` exactly (here `exp = 10 s`, `threshold = 0`,
`now = 10 s`), the code returns `false` although the claim's condition
`exp - threshold <= now` holds. -/
theorem claim_C2_counterexample :
    isTokenExpired (JwtToken.payload [("test", Json.num 123)]) 0 0
      = Except.error (JsError.jsError "Invalid token payload.")
  ∧ isTokenExpired (JwtToken.payload [("exp", Json.num 10)]) 0 10000 = Except.ok false
  ∧ ((10 : Int) - 0) * 1000 ≤ 10000 := by
  refine ⟨rfl, rfl, by norm_num⟩

/-- Claim C2 (amended): for every token whose claims segment decodes to
valid JSON: if the claims have no `exp` key, `isTokenExpired` throws
`Error("Invalid token payload.")` for every threshold; if the claims have a
numeric `exp`, `isTokenExpired(token, threshold)` returns `true` exactly
when `exp - threshold < now` strictly (in Unix seconds; `now` is
`Date.now()` milliseconds divided by 1000). -/
theorem claim_C2 (claims : List (String × Json)) (threshold nowMs e : Int) :
    (claims.lookup "exp" = none →
      isTokenExpired (.payload claims) threshold nowMs
        = .error (.jsError "Invalid token payload."))
  ∧ (claims.lookup "exp" = some (.num e) →
      (isTokenExpired (.payload claims) threshold nowMs = .ok true
        ↔ (e - threshold) * 1000 < nowMs)) := by
  constructor
  · intro h
    simp [isTokenExpired, jwtExpiration, getTokenPayload, h]
  · intro h
    simp [isTokenExpired, jwtExpiration, getTokenPayload, h, expLtNow]

/-- Witness for claim C2 at concrete tokens: claims `[("x", 1)]` with
threshold 5 at `now = 0`, and claims `[("exp", 10)]` with threshold 0 at
`nowMs = 20000`. -/
theorem claim_C2_witness :
    isTokenExpired (JwtToken.payload [("x", Json.num 1)]) 5 0
      = Except.error (JsError.jsError "Invalid token payload.")
  ∧ (isTokenExpired (JwtToken.payload [("exp", Json.num 10)]) 0 20000
      = Except.ok true ↔ ((10 : Int) - 0) * 1000 < 20000) :=
  ⟨(claim_C2 [("x", Json.num 1)] 5 0 0).1 rfl,
   (claim_C2 [("exp", Json.num 10)] 0 20000 10).2 rfl⟩

/-- Claim C6, counterexample: reading `isValid` on a store whose token
decodes to claims without an `exp` key propagates
`Error("Invalid token payload.")` instead of returning a boolean —
`jwtValid` only catches `JWTInvalid` errors. -/
theorem claim_C6_counterexample :
    storeIsValid ⟨JwtToken.payload [("test", Json.num 123)], JsValue.null, []⟩ 0
      = Except.error (JsError.jsError "Invalid token payload.") := rfl

/-- Claim C6 (amended): reading `AuthStore.isValid` returns `false` without
throwing for every token that fails to decode (including the empty string),
returns `not expired` for tokens decoding to claims with a numeric `exp`,
but **throws** for tokens that decode to claims lacking an `exp` key (the
`Error("Invalid token payload.")` is not a `JWTInvalid`, so the
catch-and-false in `jwtValid` does not apply to it). -/
theorem claim_C6 (st : AuthStoreState) (nowMs : Int) (s : String)
    (claims : List (String × Json)) (e : Int) :
    (st.baseToken = .undecodable s → storeIsValid st nowMs = .ok false)
  ∧ (st.baseToken = .payload claims → claims.lookup "exp" = none →
      storeIsValid st nowMs = .error (.jsError "Invalid token payload."))
  ∧ (st.baseToken = .payload claims → claims.lookup "exp" = some (.num e) →
      (storeIsValid st nowMs = .ok true ↔ ¬ e * 1000 < nowMs)) := by
  refine ⟨?_, ?_, ?_⟩
  · intro h
    simp [storeIsValid, jwtValid, isTokenExpired, jwtExpiration, getTokenPayload, h]
  · intro h hexp
    simp [storeIsValid, jwtValid, isTokenExpired, jwtExpiration, getTokenPayload, h, hexp]
  · intro h hexp
    simp [storeIsValid, jwtValid, isTokenExpired, jwtExpiration, getTokenPayload, h,
      hexp, expLtNow]

/-- Witness for claim C6 at concrete stores: an undecodable token, a
decodable token without `exp`, and a decodable token with `exp = 5` read at
`nowMs = 0`. -/
theorem claim_C6_witness :
    storeIsValid ⟨JwtToken.undecodable "abc", JsValue.null, []⟩ 0 = .ok false
  ∧ storeIsValid ⟨JwtToken.payload [("a", Json.num 1)], JsValue.null, []⟩ 0
      = .error (.jsError "Invalid token payload.")
  ∧ (storeIsValid ⟨JwtToken.payload [("exp", Json.num 5)], JsValue.null, []⟩ 0
      = .ok true ↔ ¬ (5 : Int) * 1000 < 0) :=
  ⟨(claim_C6 ⟨JwtToken.undecodable "abc", JsValue.null, []⟩ 0 "abc" [] 0).1 rfl,
   (claim_C6 ⟨JwtToken.payload [("a", Json.num 1)], JsValue.null, []⟩ 0 ""
      [("a", Json.num 1)] 0).2.1 rfl rfl,
   (claim_C6 ⟨JwtToken.payload [("exp", Json.num 5)], JsValue.null, []⟩ 0 ""
      [("exp", Json.num 5)] 5).2.2 rfl rfl⟩

/-- Claim C5, counterexample: `save` accepts a principal without any
identifier field — with a valid token and the model `{}` (a non-null object
with no `id`), the call succeeds (throws nothing) and notifies the
registered listener, although the claim requires it to fail. -/
theorem claim_C5_counterexample :
    (BaseAuthStore.save ⟨emptyToken, JsValue.null, [0]⟩
        (JwtToken.payload [("exp", Json.num 1)]) (JsValue.obj []) 0).2.2 = none
  ∧ (JsValue.obj []).hasStringId = false := ⟨rfl, rfl⟩

/-- Claim C5 (amended): `AuthStore.save(token, principal)` fails exactly
when the token is not loosely valid (expired, unparseable, or — via the
propagated decode error — parseable without `exp`) or the principal is a
falsy or non-object value; **no identifier field is required**.  On every
failure it leaves the stored `(token, model)` pair exactly as before the
call and fires no onChange notification; on success it replaces both
fields and synchronously notifies every registered listener with the new
pair. -/
theorem claim_C5 (st : AuthStoreState) (token : JwtToken) (model : JsValue)
    (nowMs : Int) :
    ((BaseAuthStore.save st token model nowMs).2.2.isSome
      ↔ ¬ (jwtValid token nowMs = .ok true
            ∧ (model.truthy && model.isObjectType) = true))
  ∧ ((BaseAuthStore.save st token model nowMs).2.2.isSome →
      (BaseAuthStore.save st token model nowMs).1 = st
      ∧ (BaseAuthStore.save st token model nowMs).2.1 = [])
  ∧ ((BaseAuthStore.save st token model nowMs).2.2 = none →
      (BaseAuthStore.save st token model nowMs).1
          = { st with baseToken := token, baseModel := model }
      ∧ (BaseAuthStore.save st token model nowMs).2.1
          = st.listeners.map (fun l => (l, token, model))) := by
  rcases hjv : jwtValid token nowMs with e | b
  · refine ⟨by simp [BaseAuthStore.save, hjv], ?_, ?_⟩
    · intro _
      exact ⟨by simp [BaseAuthStore.save, hjv], by simp [BaseAuthStore.save, hjv]⟩
    · intro h
      simp [BaseAuthStore.save, hjv] at h
  · cases b
    · refine ⟨by simp [BaseAuthStore.save, hjv], ?_, ?_⟩
      · intro _
        exact ⟨by simp [BaseAuthStore.save, hjv], by simp [BaseAuthStore.save, hjv]⟩
      · intro h
        simp [BaseAuthStore.save, hjv] at h
    · by_cases hm : (model.truthy && model.isObjectType) = true
      · have ht : model.truthy = true := by
          cases hcm : model.truthy <;> simp [hcm] at hm ⊢
        have ho : model.isObjectType = true := by
          cases hco : model.isObjectType <;> simp [hco] at hm ⊢
        have h1 : (!model.truthy || !model.isObjectType) = false := by simp [ht, ho]
        refine ⟨by simp [BaseAuthStore.save, hjv, h1, hm], ?_, ?_⟩
        · intro hcontra
          simp [BaseAuthStore.save, hjv, h1] at hcontra
        · intro _
          exact ⟨by simp [BaseAuthStore.save, hjv, h1],
                 by simp [BaseAuthStore.save, hjv, h1, triggerChange]⟩
      · have h1 : (!model.truthy || !model.isObjectType) = true := by
          cases hcm : model.truthy <;> cases hco : model.isObjectType <;>
            simp [hcm, hco] at hm ⊢
        refine ⟨by simp [BaseAuthStore.save, hjv, h1, hm], ?_, ?_⟩
        · intro _
          exact ⟨by simp [BaseAuthStore.save, hjv, h1], by simp [BaseAuthStore.save, hjv, h1]⟩
        · intro h
          simp [BaseAuthStore.save, hjv, h1] at h

/-- Witness for claim C5: a successful save (valid token, object model with
an id, one registered listener) replaces the state and notifies, and a
rejected save (expired token) leaves the state untouched with no
notification. -/
theorem claim_C5_witness :
    ((BaseAuthStore.save ⟨emptyToken, JsValue.null, [3]⟩
        (JwtToken.payload [("exp", Json.num 9)]) (JsValue.obj [("id", Json.str "r1")]) 0).1
      = ⟨JwtToken.payload [("exp", Json.num 9)], JsValue.obj [("id", Json.str "r1")], [3]⟩
    ∧ (BaseAuthStore.save ⟨emptyToken, JsValue.null, [3]⟩
        (JwtToken.payload [("exp", Json.num 9)]) (JsValue.obj [("id", Json.str "r1")]) 0).2.1
      = [(3, JwtToken.payload [("exp", Json.num 9)], JsValue.obj [("id", Json.str "r1")])])
  ∧ ((BaseAuthStore.save ⟨emptyToken, JsValue.null, [3]⟩
        (JwtToken.payload [("exp", Json.num 9)]) (JsValue.obj [("id", Json.str "r1")]) 9000000).1
      = ⟨emptyToken, JsValue.null, [3]⟩
    ∧ (BaseAuthStore.save ⟨emptyToken, JsValue.null, [3]⟩
        (JwtToken.payload [("exp", Json.num 9)]) (JsValue.obj [("id", Json.str "r1")]) 9000000).2.1
      = []) :=
  ⟨(claim_C5 ⟨emptyToken, JsValue.null, [3]⟩ (JwtToken.payload [("exp", Json.num 9)])
      (JsValue.obj [("id", Json.str "r1")]) 0).2.2 rfl,
   (claim_C5 ⟨emptyToken, JsValue.null, [3]⟩ (JwtToken.payload [("exp", Json.num 9)])
      (JsValue.obj [("id", Json.str "r1")]) 9000000).2.1 rfl⟩

/-- Claim C8, counterexample: with a rejecting persistence callback,
`AsyncAuthStore.clear` does not resolve — the rejection propagates to the
caller of `clear` (there is no `try`/`catch` around the awaited callback in
`clear`, unlike in `save`). -/
theorem claim_C8_counterexample :
    (AsyncAuthStore.clear ⟨JwtToken.payload [("exp", Json.num 1)], JsValue.obj [], []⟩
        (PersistOutcome.rejects (JsError.jsError "persist failed"))).2.2
      = some (JsError.jsError "persist failed") := rfl

/-- Claim C8 (amended): for `AsyncAuthStore`, a rejection of the injected
persistence callback during `save` is caught and logged — the result of
`save` (state, notifications and outcome) is identical whether the callback
resolves or rejects, so after the synchronous base save succeeded the
returned promise still resolves.  During `clear`, however, the callback is
awaited without a handler: its rejection propagates and the promise
returned by `clear` rejects, while a resolving callback lets `clear`
resolve. -/
theorem claim_C8 (st : AuthStoreState) (token : JwtToken) (model : JsValue)
    (nowMs : Int) (p : PersistOutcome) (e : JsError) :
    (AsyncAuthStore.save st token model nowMs p
      = AsyncAuthStore.save st token model nowMs PersistOutcome.resolves)
  ∧ ((AsyncAuthStore.save st token model nowMs PersistOutcome.resolves).2.2 = none →
      (AsyncAuthStore.save st token model nowMs p).2.2 = none)
  ∧ ((AsyncAuthStore.clear st (PersistOutcome.rejects e)).2.2 = some e)
  ∧ ((AsyncAuthStore.clear st PersistOutcome.resolves).2.2 = none) := by
  have hsame : AsyncAuthStore.save st token model nowMs p
      = AsyncAuthStore.save st token model nowMs PersistOutcome.resolves := by
    unfold AsyncAuthStore.save
    rcases hb : BaseAuthStore.save st token model nowMs with ⟨st', notifs, err⟩
    cases err <;> cases p <;> simp [hb]
  refine ⟨hsame, fun h => by rw [hsame]; exact h, rfl, rfl⟩

/-- Witness for claim C8: the persistence-independence of `save` applied at
a concrete successful save with a rejecting callback. -/
theorem claim_C8_witness :
    (AsyncAuthStore.save ⟨emptyToken, JsValue.null, []⟩
        (JwtToken.payload [("exp", Json.num 9)]) (JsValue.obj [("id", Json.str "r1")]) 0
        (PersistOutcome.rejects (JsError.jsError "disk full"))).2.2 = none :=
  (claim_C8 ⟨emptyToken, JsValue.null, []⟩ (JwtToken.payload [("exp", Json.num 9)])
      (JsValue.obj [("id", Json.str "r1")]) 0
      (PersistOutcome.rejects (JsError.jsError "disk full"))
      (JsError.jsError "disk full")).2.1 rfl

/-- Claim C10: when the auth store's token is empty or not a decodable JWT
(in particular immediately after `clear()`), `exportToCookie` propagates
the token-decoding error (`getTokenPayload` rethrows the `jose` failure)
instead of returning a serialized cookie; with any decodable token it
returns the assembled cookie. -/
theorem claim_C10 (st : AuthStoreState) (s : String)
    (claims : List (String × Json)) :
    (st.baseToken = .undecodable s →
      BaseAuthStore.exportToCookie st = .error (.jwtInvalidError "Invalid JWT"))
  ∧ (st.baseToken = .payload claims → (BaseAuthStore.exportToCookie st).isOk = true)
  ∧ ((BaseAuthStore.clear st).1.baseToken = emptyToken) := by
  refine ⟨?_, ?_, rfl⟩
  · intro h
    simp [BaseAuthStore.exportToCookie, getTokenPayload, h]
  · intro h
    simp [BaseAuthStore.exportToCookie, getTokenPayload, h, Except.isOk, Except.toBool]

/-- Witness for claim C10: a cleared store (empty token) makes
`exportToCookie` throw, and a store holding a decodable token exports
successfully. -/
theorem claim_C10_witness :
    BaseAuthStore.exportToCookie ⟨emptyToken, JsValue.null, []⟩
      = .error (.jwtInvalidError "Invalid JWT")
  ∧ (BaseAuthStore.exportToCookie
      ⟨JwtToken.payload [("exp", Json.num 9)], JsValue.obj [("id", Json.str "r1")], []⟩).isOk
      = true :=
  ⟨(claim_C10 ⟨emptyToken, JsValue.null, []⟩ "" []).1 rfl,
   (claim_C10 ⟨JwtToken.payload [("exp", Json.num 9)], JsValue.obj [("id", Json.str "r1")], []⟩
      "" [("exp", Json.num 9)]).2.1 rfl⟩

/-! ## Claims about the request pipeline -/

/-- Claim C1 (evaluated at the failing input): when the request's
cancellation handle is aborted, the `fetch` awaited inside `Client.send`
rejects with a `DOMException` and — `send` having no `catch` — that raw
exception escapes to the awaiting caller instead of a
`ClientResponseError`; the `ClientResponseError` constructor itself, had it
been applied, would have produced the normalized variant with
`isAbort = true`.  Likewise a network failure escapes as the raw
`TypeError`; only the `status >= 400` path normalizes. -/
theorem claim_C1 :
    Client.sendDispatch "http://test.host/slow-1" (.aborted "The operation was aborted.")
      = .error (.raw (.domException "The operation was aborted."))
  ∧ (mkClientResponseError (some (.domException "The operation was aborted."))).isAbort = true
  ∧ Client.sendDispatch "http://test.host/slow-1" (.networkFailure "fetch failed")
      = .error (.raw (.errorInst "fetch failed")) := by
  refine ⟨rfl, ?_, rfl⟩
  simp [mkClientResponseError, origErrTruthy]

/-- Claim C4, counterexample: a request registered under the derived key
`"GET/x"` (method `GET`, path `/x`, `requestKey` unset) leaves its entry in
the pending-request registry after the request completes — `Client.send`
performs no removal on completion, so the registry still maps `"GET/x"` to
the request's controller. -/
theorem claim_C4_counterexample :
    (Client.sendCompleteRegistry
        (Client.initSendOptionsCancellation CancelState.initial true ReqKey.unset
          "GET" "/x").1).cancelControllers.lookup "GET/x" = some 0 := by
  decide

/-- `List.lookup` finds nothing among pairs whose key was filtered away. -/
theorem lookup_filter_ne_eq_none (l : List (String × Nat)) (k : String) :
    (l.filter (fun kv => kv.1 ≠ k)).lookup k = none := by
  induction l with
  | nil => rfl
  | cons hd tl ih =>
    obtain ⟨k1, v1⟩ := hd
    rw [List.filter_cons]
    by_cases h : k1 = k
    · simpa [h] using ih
    · have hbeq : (k == k1) = false := beq_eq_false_iff_ne.mpr (Ne.symm h)
      simpa [h, List.lookup, hbeq] using ih

/-- `List.lookup` over an append skips a prefix where it finds nothing. -/
theorem lookup_append_of_none (l1 l2 : List (String × Nat)) (k : String)
    (h : l1.lookup k = none) : (l1 ++ l2).lookup k = l2.lookup k := by
  induction l1 with
  | nil => rfl
  | cons hd tl ih =>
    obtain ⟨k1, v1⟩ := hd
    by_cases hk : k = k1
    · have hbeq : (k == k1) = true := beq_iff_eq.mpr hk
      simp [List.lookup, hbeq] at h
    · have hbeq : (k == k1) = false := beq_eq_false_iff_ne.mpr hk
      simp only [List.cons_append, List.lookup, hbeq] at h ⊢
      exact ih h

/-- A key that `List.lookup` misses is not among the mapped keys. -/
theorem lookup_none_not_mem_keys (l : List (String × Nat)) (k : String)
    (h : l.lookup k = none) : k ∉ l.map Prod.fst := by
  induction l with
  | nil => simp
  | cons hd tl ih =>
    obtain ⟨k1, v1⟩ := hd
    by_cases hk : k = k1
    · have hbeq : (k == k1) = true := beq_iff_eq.mpr hk
      simp [List.lookup, hbeq] at h
    · have hbeq : (k == k1) = false := beq_eq_false_iff_ne.mpr hk
      simp only [List.lookup, hbeq] at h
      simp only [List.map_cons, List.mem_cons]
      rintro (h1 | h2)
      · exact hk h1
      · exact ih h h2

/-- The filtered-away key is absent from the mapped keys of the filter. -/
theorem not_mem_keys_filter_ne (l : List (String × Nat)) (k : String) :
    k ∉ (l.filter (fun kv => kv.1 ≠ k)).map Prod.fst := by
  intro hmem
  rcases List.mem_map.mp hmem with ⟨kv, hkv, hfst⟩
  rcases List.mem_filter.mp hkv with ⟨_, hpred⟩
  have hne : kv.1 ≠ k := by simpa using hpred
  exact hne hfst

/-- Mapping the keys commutes with filtering on the key. -/
theorem map_fst_filter_ne (l : List (String × Nat)) (k : String) :
    (l.filter (fun kv => kv.1 ≠ k)).map Prod.fst
      = (l.map Prod.fst).filter (fun x => x ≠ k) := by
  induction l with
  | nil => rfl
  | cons hd tl ih =>
    by_cases h : hd.1 = k <;> simpa [List.filter_cons, h] using ih

/-- A nodup list stays nodup after appending one fresh element. -/
theorem nodup_append_singleton {α : Type} (l : List α) (a : α)
    (h : l.Nodup) (ha : a ∉ l) : (l ++ [a]).Nodup := by
  rw [List.nodup_append]
  refine ⟨h, List.nodup_singleton a, ?_⟩
  intro x hx hxa
  rcases List.mem_singleton.mp hxa with rfl
  exact ha hx

/-- A successful `List.lookup` exhibits a member of the association list. -/
theorem mem_of_lookup_some (l : List (String × Nat)) (k : String) (c : Nat)
    (h : l.lookup k = some c) : (k, c) ∈ l := by
  induction l with
  | nil => simp [List.lookup] at h
  | cons hd tl ih =>
    obtain ⟨k1, v1⟩ := hd
    by_cases hk : k = k1
    · have hbeq : (k == k1) = true := beq_iff_eq.mpr hk
      simp only [List.lookup, hbeq] at h
      obtain rfl : v1 = c := by simpa using h
      simp [hk]
    · have hbeq : (k == k1) = false := beq_eq_false_iff_ne.mpr hk
      simp only [List.lookup, hbeq] at h
      exact List.mem_cons_of_mem _ (ih h)

/-- Registering a fresh controller under `key` (after the
`cancelRequest(key)` performed first) keeps the registry's keys free of
duplicates. -/
theorem register_keys_nodup (st : CancelState) (key : String) (n : Nat)
    (h : (st.cancelControllers.map Prod.fst).Nodup) :
    (((Client.cancelRequest st key).cancelControllers ++ [(key, n)]).map Prod.fst).Nodup := by
  rw [List.map_append]
  cases hl : st.cancelControllers.lookup key with
  | none =>
    have hst : Client.cancelRequest st key = st := by
      simp [Client.cancelRequest, hl]
    rw [hst]
    simpa using nodup_append_singleton _ _ h (lookup_none_not_mem_keys _ _ hl)
  | some c =>
    have hst : (Client.cancelRequest st key).cancelControllers
        = st.cancelControllers.filter (fun kv => kv.1 ≠ key) := by
      simp [Client.cancelRequest, hl]
    rw [hst]
    simpa using nodup_append_singleton _ _
      (by rw [map_fst_filter_ne]; exact h.filter _)
      (not_mem_keys_filter_ne _ _)

/-- Claim C4 (amended): the pending-request registry holds at most one
handle per key (registration preserves key uniqueness), and registering a
handle for a key that already has one first aborts and removes the prior
handle, leaving the new controller under the key.  An entry is removed
exactly by `cancelRequest` with its key (which also aborts it) or by
`cancelAllRequests` (which aborts and clears everything) — **but not by
request completion**: `Client.send` leaves the registry unchanged when a
request settles, so after a request issued under key `K` completes the
registry still contains the entry for `K`. -/
theorem claim_C4 (st : CancelState) (k s method path : String) (c : Nat)
    (enable : Bool) (rk : ReqKey) :
    ((st.cancelControllers.map Prod.fst).Nodup →
      (((Client.initSendOptionsCancellation st enable rk method
          path).1.cancelControllers.map Prod.fst)).Nodup)
  ∧ (st.cancelControllers.lookup s = some c → s ≠ "" →
      c ∈ (Client.initSendOptionsCancellation st true (ReqKey.key s) method path).1.aborted
      ∧ (Client.initSendOptionsCancellation st true (ReqKey.key s) method
            path).1.cancelControllers.lookup s = some st.nextId)
  ∧ ((Client.cancelRequest st k).cancelControllers.lookup k = none)
  ∧ (st.cancelControllers.lookup k = some c →
      c ∈ (Client.cancelRequest st k).aborted)
  ∧ ((Client.cancelAllRequests st).cancelControllers = [])
  ∧ (st.cancelControllers.lookup k = some c →
      c ∈ (Client.cancelAllRequests st).aborted)
  ∧ (Client.sendCompleteRegistry st = st) := by
  refine ⟨?_, ?_, ?_, ?_, rfl, ?_, rfl⟩
  · -- registration preserves key uniqueness
    intro h
    by_cases hcond : (enable && !(rk = ReqKey.explicitNull : Bool)) = true
    · simp only [Client.initSendOptionsCancellation, hcond, if_true]
      exact register_keys_nodup st _ _ h
    · simp only [Client.initSendOptionsCancellation, Bool.not_eq_true] at hcond
      simp only [Client.initSendOptionsCancellation, hcond, Bool.false_eq_true, if_false]
      exact h
  · -- registering over an existing key aborts the prior handle and replaces it
    intro hl hs
    have hkey : (if s = "" then method ++ path else s) = s := if_neg hs
    have hreq : Client.cancelRequest st s
        = { st with
            aborted := c :: st.aborted,
            cancelControllers := st.cancelControllers.filter (fun kv => kv.1 ≠ s) } := by
      simp [Client.cancelRequest, hl]
    constructor
    · simp only [Client.initSendOptionsCancellation, hkey]
      rw [if_pos (by rfl)]
      simp [hreq]
    · simp only [Client.initSendOptionsCancellation, hkey]
      rw [if_pos (by rfl)]
      simp only [hreq]
      rw [lookup_append_of_none _ _ _ (lookup_filter_ne_eq_none _ _)]
      simp [List.lookup]
  · -- cancelRequest removes the entry
    cases hl : st.cancelControllers.lookup k with
    | none => simp [Client.cancelRequest, hl]
    | some c' =>
      simp only [Client.cancelRequest, hl]
      exact lookup_filter_ne_eq_none _ _
  · -- cancelRequest aborts the removed controller
    intro hl
    simp [Client.cancelRequest, hl]
  · -- cancelAllRequests aborts every registered controller
    intro hl
    have hmem : (k, c) ∈ st.cancelControllers := mem_of_lookup_some _ _ _ hl
    simp only [Client.cancelAllRequests, List.mem_append]
    exact Or.inl (List.mem_map.mpr ⟨(k, c), hmem, rfl⟩)

/-- Witness for claim C4 at a concrete registry: one pending entry
`("k", 7)`; re-registering under `"k"` aborts controller 7 and installs
controller 8, `cancelRequest` aborts controller 7, and the key-uniqueness
invariant is preserved. -/
theorem claim_C4_witness :
    (7 ∈ (Client.initSendOptionsCancellation ⟨[("k", 7)], [], 8⟩ true (ReqKey.key "k")
        "GET" "/x").1.aborted
    ∧ (Client.initSendOptionsCancellation ⟨[("k", 7)], [], 8⟩ true (ReqKey.key "k")
        "GET" "/x").1.cancelControllers.lookup "k" = some 8)
  ∧ 7 ∈ (Client.cancelRequest ⟨[("k", 7)], [], 8⟩ "k").aborted
  ∧ (((Client.initSendOptionsCancellation ⟨[("k", 7)], [], 8⟩ true (ReqKey.key "k")
        "GET" "/x").1.cancelControllers.map Prod.fst)).Nodup := by
  refine ⟨(claim_C4 ⟨[("k", 7)], [], 8⟩ "k" "k" "GET" "/x" 7 true ReqKey.unset).2.1 rfl
      (by decide), ?_, ?_⟩
  · exact (claim_C4 ⟨[("k", 7)], [], 8⟩ "k" "k" "GET" "/x" 7 true ReqKey.unset).2.2.2.1 rfl
  · exact (claim_C4 ⟨[("k", 7)], [], 8⟩ "k" "k" "GET" "/x" 7 true
      (ReqKey.key "k")).1 (by decide)

/-! ## Claims about `filter`, the realtime registry and auto refresh -/

/-- The code's rendering `switch` and the specification's substitution
table produce the same replacement text for every parameter value. -/
theorem filterRender_eq_specRender : Client.filterRender = filterSpecRender := by
  funext v
  cases v <;> rfl

/-- `GetSubstitution` is the identity on replacement text containing no
`$`. -/
theorem getSubstitution_of_no_dollar (rep matched before after : List Char)
    (h : '$' ∉ rep) : getSubstitution rep matched before after = rep := by
  induction rep with
  | nil => rfl
  | cons c rest ih =>
    have hc : ¬ c = '$' := fun hcc => h (by simp [hcc])
    have hrest : '$' ∉ rest := fun hm => h (List.mem_cons_of_mem _ hm)
    rw [getSubstitution.eq_def]
    simp only [if_neg hc]
    rw [ih hrest]

/-- On `$`-free replacement text, `replaceAll` inserts literally. -/
theorem replaceAllSubstFuel_no_dollar (fuel : Nat) (pat rep : List Char)
    (h : '$' ∉ rep) :
    ∀ s seen, replaceAllSubstFuel fuel s pat rep seen
      = literalReplaceFuel fuel s pat rep := by
  induction fuel with
  | zero => intro s seen; rfl
  | succ n ih =>
    intro s seen
    cases s with
    | nil => rfl
    | cons c rest =>
      by_cases hp : pat ≠ [] ∧ pat.isPrefixOf (c :: rest)
      · simp only [replaceAllSubstFuel, literalReplaceFuel, if_pos hp]
        rw [getSubstitution_of_no_dollar _ _ _ _ h, ih]
      · simp only [replaceAllSubstFuel, literalReplaceFuel, if_neg hp]
        rw [ih]

/-- `replaceList` on `$`-free replacement text equals literal
insertion. -/
theorem replaceList_eq_literal (s pat rep : List Char) (h : '$' ∉ rep) :
    replaceList s pat rep = literalReplaceAll s pat rep :=
  replaceAllSubstFuel_no_dollar s.length pat rep h s []

/-- The substitution folds of `filter` and of the specification agree when
every rendered value is `$`-free. -/
theorem filter_foldl_eq_literal (params : List (String × FilterParam))
    (hfree : ∀ kv ∈ params, '$' ∉ Client.filterRender kv.2) :
    ∀ acc : List Char,
      params.foldl (fun a kv =>
          replaceList a (placeholderFor kv.1) (Client.filterRender kv.2)) acc
        = params.foldl (fun a kv =>
            literalReplaceAll a (placeholderFor kv.1) (filterSpecRender kv.2)) acc := by
  induction params with
  | nil => intro acc; rfl
  | cons kv rest ih =>
    intro acc
    have hkv : '$' ∉ Client.filterRender kv.2 := hfree kv (List.mem_cons_self kv rest)
    simp only [List.foldl_cons]
    rw [replaceList_eq_literal _ _ _ hkv, congrFun filterRender_eq_specRender kv.2]
    exact ih (fun kv2 h2 => hfree kv2 (List.mem_cons_of_mem _ h2)) _

/-- Claim C9, counterexample: the claim's declared rules prescribe literal
substitution of the rendered value, but `Client.filter` substitutes through
`String.prototype.replaceAll`, whose `GetSubstitution` expands
`$`-patterns occurring in the rendered value: for the parameter value
`"$&"` the program yields `a='{:x}'` (the `$&` expands to the matched
placeholder text) while the declared rules yield `a='$&'`. -/
theorem claim_C9_counterexample :
    Client.filter "a={:x}" (some [("x", FilterParam.str "$&")]) = "a='{:x}'"
  ∧ filterSpec "a={:x}" [("x", FilterParam.str "$&")] = "a='$&'"
  ∧ ("a='{:x}'" : String) ≠ "a='$&'" :=
  ⟨by decide, by decide, by decide⟩

/-- Claim C9 (amended): `Client.filter` substitutes every `{:name}`
placeholder per the declared rules whenever the rendered parameter values
contain no `$` character; because the insertion goes through
`String.prototype.replaceAll`, the `GetSubstitution` patterns `$$`, `$&`,
`$`-backquote and `$'` inside a rendered value are expanded rather than
inserted literally (e.g. `filter("a={:x}", {x: "$&"})` yields `a='{:x}'`,
not `a='$&'`).  Placeholders with no matching parameter are left verbatim;
in particular `filter("a={:x}", {x: "it's"}) = a='it\'s'` and
`filter("a={:x}", {x: null}) = a=null`. -/
theorem claim_C9 :
    (∀ raw params, (∀ kv ∈ params, '$' ∉ Client.filterRender kv.2) →
        Client.filter raw (some params) = filterSpec raw params)
  ∧ Client.filter "a={:x}" (some [("x", FilterParam.str "$&")]) = "a='{:x}'"
  ∧ Client.filter "a={:x}" (some [("x", FilterParam.str "it's")]) = "a='it\\'s'"
  ∧ Client.filter "a={:x}" (some [("x", FilterParam.null)]) = "a=null"
  ∧ (∀ raw, Client.filter raw none = raw)
  ∧ Client.filter "a={:x} b={:z}" (some [("x", FilterParam.null)]) = "a=null b={:z}" := by
  refine ⟨?_, by decide, by decide, by decide, fun raw => rfl, by decide⟩
  intro raw params hfree
  simp only [Client.filter, filterSpec]
  exact congrArg String.mk (filter_foldl_eq_literal params hfree raw.data)

/-- Witness for claim C9: the literal-agreement part applied at a concrete
`$`-free parameter list. -/
theorem claim_C9_witness :
    Client.filter "n={:k}" (some [("k", FilterParam.num 5)])
      = filterSpec "n={:k}" [("k", FilterParam.num 5)] :=
  claim_C9.1 "n={:k}" [("k", FilterParam.num 5)] (by decide)

/-- Under the registry invariant (no key with an empty listener list), the
"already unsubscribed" skip in `unsubscribe` never fires: every matched key
is removed. -/
theorem removed_eq_matched (subs : SubsRegistry) (t : String)
    (hpos : ∀ kv ∈ subs, 0 < kv.2) :
    (getSubscriptionsByTopic subs t).filter (fun kv => decide (0 < kv.2))
      = getSubscriptionsByTopic subs t := by
  apply List.filter_eq_self.mpr
  intro kv hkv
  exact decide_eq_true (hpos kv (List.mem_filter.mp hkv).1)

/-- For an element of the registry, membership of its key among the matched
keys is exactly the topic match. -/
theorem contains_matched_keys (subs : SubsRegistry) (t : String)
    (kv : String × Nat) (hmem : kv ∈ subs) :
    ((getSubscriptionsByTopic subs t).map Prod.fst).contains kv.1
      = topicKeyMatch t kv.1 := by
  by_cases h : topicKeyMatch t kv.1 = true
  · rw [h]
    have : kv.1 ∈ (getSubscriptionsByTopic subs t).map Prod.fst :=
      List.mem_map.mpr ⟨kv, List.mem_filter.mpr ⟨hmem, h⟩, rfl⟩
    exact List.elem_eq_true_of_mem this
  · rw [Bool.eq_false_iff.mpr h]
    apply Bool.eq_false_iff.mpr
    intro hc
    have hm := List.mem_of_elem_eq_true hc
    rcases List.mem_map.mp hm with ⟨kv', hkv', hfst⟩
    have hmatch : topicKeyMatch t kv'.1 = true := (List.mem_filter.mp hkv').2
    rw [hfst] at hmatch
    exact h hmatch

/-- In a registry satisfying the invariant, some listener exists exactly
when the registry is non-empty. -/
theorem any_pos_of_all_pos (l : SubsRegistry) (hpos : ∀ kv ∈ l, 0 < kv.2) :
    l.any (fun kv => decide (0 < kv.2)) = !l.isEmpty := by
  cases l with
  | nil => rfl
  | cons hd tl => simp [List.any_cons, hpos hd (List.mem_cons_self hd tl)]

/-- Characterization of `unsubscribe(topic)` on registries satisfying the
invariant: the remaining registry is the non-matching part, and the action
is disconnect when nothing remains, resync when something was removed, and
nothing otherwise. -/
theorem unsubscribe_some_eq (subs : SubsRegistry) (t : String)
    (hpos : ∀ kv ∈ subs, 0 < kv.2) :
    RealtimeService.unsubscribe subs (some t)
      = (subs.filter (fun kv => !topicKeyMatch t kv.1),
         if subs.filter (fun kv => !topicKeyMatch t kv.1) = [] then RtAction.disconnect
         else if getSubscriptionsByTopic subs t = [] then RtAction.noop
         else RtAction.submit) := by
  have hfc : subs.filter
        (fun kv => !((getSubscriptionsByTopic subs t).map Prod.fst).contains kv.1)
      = subs.filter (fun kv => !topicKeyMatch t kv.1) :=
    List.filter_congr (fun kv hkv => by rw [contains_matched_keys subs t kv hkv])
  have hpos' : ∀ kv ∈ subs.filter (fun kv => !topicKeyMatch t kv.1), 0 < kv.2 :=
    fun kv hkv => hpos kv (List.mem_filter.mp hkv).1
  simp only [RealtimeService.unsubscribe, removed_eq_matched subs t hpos, hfc,
    hasSubscriptionListeners, any_pos_of_all_pos _ hpos', Bool.not_not]
  by_cases h1 : subs.filter (fun kv => !topicKeyMatch t kv.1) = []
  · simp [h1]
  · have h1e : (subs.filter (fun kv => !topicKeyMatch t kv.1)).isEmpty = false := by
      simpa [List.isEmpty_iff] using h1
    by_cases h2 : getSubscriptionsByTopic subs t = []
    · simp [h1, h1e, h2]
    · simp [h1, h1e, h2]

/-- Claim C7: in a registry satisfying the documented invariant (no key
with an empty listener list), `unsubscribe` with no topic clears every
subscription key and disconnects; with a topic it removes exactly the keys
whose topic matches up to the `?` delimiter boundary (so unsubscribing
`"foo"` removes key `"foo"` and keys `"foo?..."` but never `"foobar"`);
and afterwards the SSE connection is disconnected exactly when no
listeners remain, while a subscription resync is submitted exactly when
some key was removed and listeners remain. -/
theorem claim_C7 (subs : SubsRegistry) (topic : String)
    (hpos : ∀ kv ∈ subs, 0 < kv.2) :
    RealtimeService.unsubscribe subs none = ([], RtAction.disconnect)
  ∧ (RealtimeService.unsubscribe subs (some topic)).1
      = subs.filter (fun kv => !topicKeyMatch topic kv.1)
  ∧ (topicKeyMatch "foo" "foo" = true ∧ topicKeyMatch "foo" "foo?q=1" = true
      ∧ topicKeyMatch "foo" "foobar" = false)
  ∧ ((RealtimeService.unsubscribe subs (some topic)).2 = RtAction.disconnect
      ↔ subs.filter (fun kv => !topicKeyMatch topic kv.1) = [])
  ∧ ((RealtimeService.unsubscribe subs (some topic)).2 = RtAction.submit
      ↔ subs.filter (fun kv => !topicKeyMatch topic kv.1) ≠ []
        ∧ getSubscriptionsByTopic subs topic ≠ []) := by
  rw [unsubscribe_some_eq subs topic hpos]
  refine ⟨rfl, rfl, ⟨by decide, by decide, by decide⟩, ?_, ?_⟩
  · by_cases h1 : subs.filter (fun kv => !topicKeyMatch topic kv.1) = []
    · simp [h1]
    · by_cases h2 : getSubscriptionsByTopic subs topic = [] <;> simp [h1, h2]
  · by_cases h1 : subs.filter (fun kv => !topicKeyMatch topic kv.1) = []
    · simp [h1]
    · by_cases h2 : getSubscriptionsByTopic subs topic = [] <;> simp [h1, h2]

/-- Witness for claim C7 at the concrete registry
`[("foo", 1), ("foo?q=1", 1), ("foobar", 2)]` with topic `"foo"`: the two
`foo`-keys are removed, `"foobar"` remains, and a resync is submitted. -/
theorem claim_C7_witness :
    (RealtimeService.unsubscribe [("foo", 1), ("foo?q=1", 1), ("foobar", 2)]
        (some "foo")).1
      = ([("foo", 1), ("foo?q=1", 1), ("foobar", 2)] : SubsRegistry).filter
          (fun kv => !topicKeyMatch "foo" kv.1)
  ∧ ((RealtimeService.unsubscribe [("foo", 1), ("foo?q=1", 1), ("foobar", 2)]
        (some "foo")).2 = RtAction.submit
      ↔ ([("foo", 1), ("foo?q=1", 1), ("foobar", 2)] : SubsRegistry).filter
          (fun kv => !topicKeyMatch "foo" kv.1) ≠ []
        ∧ getSubscriptionsByTopic [("foo", 1), ("foo?q=1", 1), ("foobar", 2)] "foo" ≠ []) :=
  ⟨(claim_C7 [("foo", 1), ("foo?q=1", 1), ("foobar", 2)] "foo" (by decide)).2.1,
   (claim_C7 [("foo", 1), ("foo?q=1", 1), ("foobar", 2)] "foo" (by decide)).2.2.2.2⟩

/-- Claim C3: while the auto-refresh `beforeSend` binding is installed, an
outgoing non-internal request triggers exactly one refresh call and no
reauthentication when the stored token is valid but expires within the
threshold (e.g. in 29 minutes against a 30-minute threshold); triggers a
reauthentication call and zero refresh calls when the token is already
expired; and triggers neither when the token expires beyond the threshold
(e.g. in 31 minutes).  A refresh failure is not propagated to the outer
request: a reauthentication call is performed instead.  Requests carrying
the internal `autoRefresh` marker trigger nothing.  (`e` is the token's
`exp` in Unix seconds, `nowMs` the clock in milliseconds.) -/
theorem claim_C3 (e threshold nowMs : Int) (refresh reauth : CallOutcome)
    (err : JsError) :
    (¬ (e - 0) * 1000 < nowMs → (e - threshold) * 1000 < nowMs →
      autoRefreshBeforeSend (.payload [("exp", .num e)]) threshold false
          CallOutcome.succeeds reauth nowMs = ⟨1, 0, none⟩)
  ∧ ((e - 0) * 1000 < nowMs →
      (autoRefreshBeforeSend (.payload [("exp", .num e)]) threshold false
          refresh reauth nowMs).refreshCalls = 0
      ∧ (autoRefreshBeforeSend (.payload [("exp", .num e)]) threshold false
          refresh reauth nowMs).reauthCalls = 1)
  ∧ (¬ (e - 0) * 1000 < nowMs → ¬ (e - threshold) * 1000 < nowMs →
      autoRefreshBeforeSend (.payload [("exp", .num e)]) threshold false
          refresh reauth nowMs = ⟨0, 0, none⟩)
  ∧ (¬ (e - 0) * 1000 < nowMs → (e - threshold) * 1000 < nowMs →
      autoRefreshBeforeSend (.payload [("exp", .num e)]) threshold false
          (CallOutcome.fails err) CallOutcome.succeeds nowMs = ⟨1, 1, none⟩)
  ∧ (autoRefreshBeforeSend (.payload [("exp", .num e)]) threshold true
        refresh reauth nowMs = ⟨0, 0, none⟩) := by
  refine ⟨?_, ?_, ?_, ?_, rfl⟩
  · intro h1 h2
    have h1' : ¬ e * 1000 < nowMs := by simpa using h1
    simp [autoRefreshBeforeSend, storeIsValid, jwtValid, isTokenExpired,
      jwtExpiration, getTokenPayload, expLtNow, h1', h2]
  · intro h1
    have h1' : e * 1000 < nowMs := by simpa using h1
    cases reauth <;>
      simp [autoRefreshBeforeSend, storeIsValid, jwtValid, isTokenExpired,
        jwtExpiration, getTokenPayload, expLtNow, h1']
  · intro h1 h2
    have h1' : ¬ e * 1000 < nowMs := by simpa using h1
    simp [autoRefreshBeforeSend, storeIsValid, jwtValid, isTokenExpired,
      jwtExpiration, getTokenPayload, expLtNow, h1', h2]
  · intro h1 h2
    have h1' : ¬ e * 1000 < nowMs := by simpa using h1
    simp [autoRefreshBeforeSend, storeIsValid, jwtValid, isTokenExpired,
      jwtExpiration, getTokenPayload, expLtNow, h1', h2]

/-- Witness for claim C3 with a 30-minute (1800 s) threshold at `now = 0`:
a token expiring in 29 minutes (`exp = 1740`) triggers exactly one refresh;
an expired token (`exp = -60`) triggers one reauthentication and no
refresh; a token expiring in 31 minutes (`exp = 1860`) triggers neither;
and a failing refresh escalates to one successful reauthentication. -/
theorem claim_C3_witness :
    autoRefreshBeforeSend (.payload [("exp", .num 1740)]) 1800 false
        CallOutcome.succeeds CallOutcome.succeeds 0 = ⟨1, 0, none⟩
  ∧ ((autoRefreshBeforeSend (.payload [("exp", .num (-60))]) 1800 false
        CallOutcome.succeeds CallOutcome.succeeds 0).refreshCalls = 0
      ∧ (autoRefreshBeforeSend (.payload [("exp", .num (-60))]) 1800 false
        CallOutcome.succeeds CallOutcome.succeeds 0).reauthCalls = 1)
  ∧ autoRefreshBeforeSend (.payload [("exp", .num 1860)]) 1800 false
        CallOutcome.succeeds CallOutcome.succeeds 0 = ⟨0, 0, none⟩
  ∧ autoRefreshBeforeSend (.payload [("exp", .num 1740)]) 1800 false
        (CallOutcome.fails (JsError.jsError "refresh failed")) CallOutcome.succeeds 0
      = ⟨1, 1, none⟩ :=
  ⟨(claim_C3 1740 1800 0 CallOutcome.succeeds CallOutcome.succeeds
      (JsError.jsError "refresh failed")).1 (by norm_num) (by norm_num),
   (claim_C3 (-60) 1800 0 CallOutcome.succeeds CallOutcome.succeeds
      (JsError.jsError "refresh failed")).2.1 (by norm_num),
   (claim_C3 1860 1800 0 CallOutcome.succeeds CallOutcome.succeeds
      (JsError.jsError "refresh failed")).2.2.1 (by norm_num) (by norm_num),
   (claim_C3 1740 1800 0 CallOutcome.succeeds CallOutcome.succeeds
      (JsError.jsError "refresh failed")).2.2.2.1 (by norm_num) (by norm_num)⟩
